import Mathlib

/-!
Shallow embedding of `src/Skywalker.py` (a Fusion 360 script generating a
flying-wing geometry) and proofs about its portable logic: the airfoil
profile parser `read_profile`, the chord point arithmetic of `sketch_chord`,
the spar grid of `create_spars`, the aileron corner points built in `run`,
and the derived constant `TRAIL_SWEEP`.

Modelling conventions:
* Python floats are modelled as exact rationals (`ℚ`) in the parser and as
  real numbers (`ℝ`) in the geometry; IEEE rounding and overflow-to-infinity
  are not modelled.
* A raised exception (`ValueError` from unpacking or `float`) is modelled by
  `Option.none` / `Except.error`.
* `pySplit` models Python's `str.split(" ")` with its explicit
  one-character separator: split at every occurrence of the space
  character, keeping empty pieces between consecutive separators.
* The Fusion 360 `ObjectCollection` that geometry loops `add` into is
  modelled as a Lean list built by repeated append, preserving order.
-/

namespace Skywalker

/-- Result of a successful Python `float(s)` call: a finite value (modelled
as an exact rational), an infinity, or a NaN. -/
inductive PyFloatVal where
  | finite : ℚ → PyFloatVal
  | posInf : PyFloatVal
  | negInf : PyFloatVal
  | nanV : PyFloatVal
deriving DecidableEq, Inhabited

/-- Negation of a parsed float value, for a leading minus sign. -/
def PyFloatVal.neg : PyFloatVal → PyFloatVal
  | .finite q => .finite (-q)
  | .posInf => .negInf
  | .negInf => .posInf
  | .nanV => .nanV

/-- Whitespace characters that Python `float(s)` strips from both ends of
its argument. -/
def isPySpace (c : Char) : Bool :=
  c = ' ' || c = '\t' || c = '\n' || c = '\r' || c = '\x0b' || c = '\x0c'

/-- Strip leading and trailing Python whitespace from a character list. -/
def pyStrip (cs : List Char) : List Char :=
  ((cs.dropWhile isPySpace).reverse.dropWhile isPySpace).reverse

/-- Consume a run of ASCII decimal digits, allowing a single underscore
between two digits as Python numeric literals do.  Arguments: accumulated
value, number of digits consumed so far, remaining input.  Returns the
value, the digit count, and the unconsumed rest. -/
def takeDigits : ℕ → ℕ → List Char → ℕ × ℕ × List Char
  | acc, cnt, '_' :: c :: rest =>
    if 0 < cnt ∧ c.isDigit then takeDigits (10 * acc + (c.toNat - 48)) (cnt + 1) rest
    else (acc, cnt, '_' :: c :: rest)
  | acc, cnt, c :: rest =>
    if c.isDigit then takeDigits (10 * acc + (c.toNat - 48)) (cnt + 1) rest
    else (acc, cnt, c :: rest)
  | acc, cnt, [] => (acc, cnt, [])

/-- Parse the digit run of an exponent; it must be nonempty and consume the
whole rest of the token. -/
def parseExpDigits (cs : List Char) : Option ℕ :=
  match takeDigits 0 0 cs with
  | (v, cnt, rest) => if 0 < cnt ∧ rest = [] then some v else none

/-- Parse an exponent body after `e`/`E`: an optional sign then digits. -/
def parseExpAux (cs : List Char) : Option ℤ :=
  match cs with
  | '+' :: rest => (parseExpDigits rest).map (fun n => (n : ℤ))
  | '-' :: rest => (parseExpDigits rest).map (fun n => -(n : ℤ))
  | rest => (parseExpDigits rest).map (fun n => (n : ℤ))

/-- The rational `(n / d) * 10^k`, built with `mkRat` so that parsed values
kernel-evaluate. -/
def applyExp (n : ℤ) (d : ℕ) (k : ℤ) : ℚ :=
  if 0 ≤ k then mkRat (n * ((10 ^ k.toNat : ℕ) : ℤ)) d
  else mkRat n (d * 10 ^ (-k).toNat)

/-- Parse an unsigned Python float literal body: `inf`, `infinity`, `nan`
(case-insensitive), or digits with an optional fractional part and an
optional decimal exponent. -/
def parseUnsigned (cs : List Char) : Option PyFloatVal :=
  let low := cs.map Char.toLower
  if low = ['i', 'n', 'f'] ∨ low = ['i', 'n', 'f', 'i', 'n', 'i', 't', 'y'] then
    some .posInf
  else if low = ['n', 'a', 'n'] then
    some .nanV
  else
    match takeDigits 0 0 cs with
    | (iv, icnt, rest1) =>
      match rest1 with
      | '.' :: rest2 =>
        match takeDigits 0 0 rest2 with
        | (fv, fcnt, rest3) =>
          if icnt = 0 ∧ fcnt = 0 then none
          else
            match rest3 with
            | [] =>
              some (.finite
                (mkRat ((iv : ℤ) * ((10 ^ fcnt : ℕ) : ℤ) + (fv : ℤ)) (10 ^ fcnt)))
            | e :: rest4 =>
              if e = 'e' ∨ e = 'E' then
                (parseExpAux rest4).map (fun k =>
                  .finite (applyExp ((iv : ℤ) * ((10 ^ fcnt : ℕ) : ℤ) + (fv : ℤ))
                    (10 ^ fcnt) k))
              else none
      | [] => if icnt = 0 then none else some (.finite (mkRat (iv : ℤ) 1))
      | e :: rest4 =>
        if (e = 'e' ∨ e = 'E') ∧ 0 < icnt then
          (parseExpAux rest4).map (fun k => .finite (applyExp (iv : ℤ) 1 k))
        else none

/-- Model of Python `float(s)`: strip whitespace, handle an optional sign,
parse the body.  `none` models a raised `ValueError`. -/
def pyFloat (s : String) : Option PyFloatVal :=
  match pyStrip s.data with
  | [] => none
  | '+' :: cs => parseUnsigned cs
  | '-' :: cs => (parseUnsigned cs).map PyFloatVal.neg
  | cs => parseUnsigned cs

/-- Split a character list at every occurrence of the space character,
keeping the (possibly empty) pieces between separators. -/
def splitOnSpaceChars : List Char → List (List Char)
  | [] => [[]]
  | c :: rest =>
    match splitOnSpaceChars rest with
    | [] => [[]]
    | g :: gs => if c = ' ' then [] :: g :: gs else (c :: g) :: gs

/-- Model of Python `line.split(" ")` (split on the explicit one-character
separator, no merging of runs, no stripping). -/
def pySplit (s : String) : List String :=
  (splitOnSpaceChars s.data).map (fun cs => String.mk cs)

/-- One iteration of the loop body of `read_profile` (source lines 70-74):
`x, y = line.split(" ")` followed by `float(x)` and `float(y)`.  `none`
models the `ValueError` raised either by unpacking a split of length other
than two or by a failed `float` conversion. -/
def parse_cols (line : String) : Option (PyFloatVal × PyFloatVal) :=
  match pySplit line with
  | [xs, ys] =>
    match pyFloat xs, pyFloat ys with
    | some x, some y => some (x, y)
    | _, _ => none
  | _ => none

/-- The loop of `read_profile`, accumulating the `x_profile` and
`y_profile` lists exactly as the source does. -/
def read_profile_loop : List String → List PyFloatVal → List PyFloatVal →
    Option (List PyFloatVal × List PyFloatVal)
  | [], xs, ys => some (xs, ys)
  | line :: rest, xs, ys =>
    match parse_cols line with
    | some (x, y) => read_profile_loop rest (xs ++ [x]) (ys ++ [y])
    | none => none

/-- Embedding of `read_profile` (source lines 49-78) applied to the list of
lines obtained from the opened file: skip the header line, parse every later
line into the two column lists, and zip them into the profile. -/
def read_profile (lines : List String) : Option (List (PyFloatVal × PyFloatVal)) :=
  (read_profile_loop (lines.drop 1) [] []).map (fun p => p.1.zip p.2)

/-- Model of `os.path.join` (POSIX) for the two-argument case used by the
source. -/
def os_path_join (a b : String) : String :=
  if b.startsWith "/" then b
  else if a = "" then b
  else if a.endsWith "/" then a ++ b
  else a ++ "/" ++ b

/-- `PROFILE_PATH = os.path.join(this_dir, "MH45.txt")` (source lines
42-43), with the directory of the script left abstract. -/
def PROFILE_PATH (this_dir : String) : String := os_path_join this_dir "MH45.txt"

/-- `read_profile` together with its file access: `fs` maps a path to the
lines `readlines` would return for the file at that path.  The body opens
`PROFILE_PATH` (source line 65), not its `path` parameter. -/
def read_profile_open (this_dir : String) (fs : String → List String)
    (path : String) : Option (List (PyFloatVal × PyFloatVal)) :=
  read_profile (fs (PROFILE_PATH this_dir))

/-- Number of loop iterations `read_profile` starts on the given data lines;
the iteration that raises is counted as visited and ends the pass. -/
def read_profile_visits_loop : List String → ℕ
  | [] => 0
  | line :: rest =>
    match parse_cols line with
    | some _ => 1 + read_profile_visits_loop rest
    | none => 1

/-- Loop iterations `read_profile` starts on a file with the given lines. -/
def read_profile_visits (lines : List String) : ℕ :=
  read_profile_visits_loop (lines.drop 1)

/-- Sequential parse of all data lines; helper used to characterise
`read_profile`. -/
def parse_all : List String → Option (List (PyFloatVal × PyFloatVal))
  | [] => some []
  | line :: rest =>
    match parse_cols line, parse_all rest with
    | some p, some ps => some (p :: ps)
    | _, _ => none

/-! Design constants (source lines 8-43).  Python `int` constants are `ℤ`,
Python `float` constants are `ℚ`, and quantities built with `math` functions
are `ℝ`. -/

/-- Sweep in radians (source line 11). -/
noncomputable def SWEEP : ℝ := (30 / 360) * (2 * Real.pi)

/-- Root chord length in cm (source line 13, a Python int). -/
def ROOT_CHORD_LENGTH : ℤ := 20

/-- Tip chord length in cm (source line 15, a Python int). -/
def TIP_CHORD_LENGTH : ℤ := 14

/-- Span length in cm (source line 17, a Python int). -/
def SPAN : ℤ := 55

/-- Aileron length in cm (source line 20). -/
def AIL_LENGTH : ℚ := 3.2

/-- Aileron width in cm (source line 22, a Python int). -/
def AIL_WIDTH : ℤ := 25

/-- Aileron spacing in cm (source line 24). -/
def AIL_SPACE : ℚ := 0.1

/-- Aileron slit in cm (source line 26). -/
def AIL_SLIT : ℚ := 0.5

/-- Trailing edge sweep (source line 28):
`math.asin((TIP_CHORD_LENGTH + (SPAN/2)*math.tan(SWEEP) - ROOT_CHORD_LENGTH) / (SPAN/2))`. -/
noncomputable def TRAIL_SWEEP : ℝ :=
  Real.arcsin (((TIP_CHORD_LENGTH : ℝ) + ((SPAN : ℝ) / 2) * Real.tan SWEEP -
    (ROOT_CHORD_LENGTH : ℝ)) / ((SPAN : ℝ) / 2))

/-- Distance between spars in cm (source line 31, a Python int). -/
def SPAR_DIST : ℤ := 4

/-- Spar grid angle in radians (source line 33). -/
noncomputable def SPAR_ANGLE : ℝ := (45 / 360) * (2 * Real.pi)

/-- Offset between outer perimeter and inner structures in cm (source
line 39). -/
def OFFSET : ℚ := 0.07

/-- The loop of `sketch_chord` (source lines 109-115): scale each profile
point by `length` and translate by `(x, y)`, collecting the 3-D points
added to the `chord_points` collection, in order. -/
noncomputable def sketch_chord_points (length : ℝ) (profile : List (ℝ × ℝ))
    (x y : ℝ) : List (ℝ × ℝ × ℝ) :=
  profile.foldl (fun pts p => pts ++ [(p.1 * length + x, p.2 * length + y, 0)]) []

/-- The root chord call of `run` (source line 353):
`sketch_chord(sketch_xy_root, ROOT_CHORD_LENGTH, profile, 0, 0)`. -/
noncomputable def root_chord_points (profile : List (ℝ × ℝ)) : List (ℝ × ℝ × ℝ) :=
  sketch_chord_points (ROOT_CHORD_LENGTH : ℝ) profile 0 0

/-- The tip chord call of `run` (source line 357):
`sketch_chord(sketch_xy_tip, TIP_CHORD_LENGTH, profile, (SPAN/2)*math.tan(SWEEP), 0)`. -/
noncomputable def tip_chord_points (profile : List (ℝ × ℝ)) : List (ℝ × ℝ × ℝ) :=
  sketch_chord_points (TIP_CHORD_LENGTH : ℝ) profile
    (((SPAN : ℝ) / 2) * Real.tan SWEEP) 0

/-- Number of elements of Python `range(start, stop, step)` for a nonzero
step: `max 0 (ceil((stop - start) / step))`. -/
def pyRangeLen (start stop step : ℤ) : ℕ :=
  if 0 < step then (stop - start + step - 1).toNat / step.toNat
  else (start - stop + (-step) - 1).toNat / (-step).toNat

/-- Python `range(start, stop, step)` as a list; element `i` is
`start + i * step`. -/
def pyRange (start stop step : ℤ) : List ℤ :=
  (List.range (pyRangeLen start stop step)).map (fun (k : ℕ) => start + (k : ℤ) * step)

/-- Embedding of `create_spars` (source lines 272-310): both loops run over
`range(-2*ROOT_CHORD_LENGTH, 2*ROOT_CHORD_LENGTH, distance)` and append
their line (a start point and an end point) to the shared `grid`
collection, front-to-back lines first, then back-to-front lines. -/
noncomputable def create_spars (angle : ℝ) (distance : ℤ) :
    List ((ℝ × ℝ × ℝ) × (ℝ × ℝ × ℝ)) :=
  let grid1 :=
    (pyRange (-2 * ROOT_CHORD_LENGTH) (2 * ROOT_CHORD_LENGTH) distance).foldl
      (fun grid (x : ℤ) =>
        grid ++ [(((x : ℝ), 0, 0),
          ((x : ℝ) + ((SPAN : ℝ) / 2) * Real.tan angle, -((SPAN : ℝ) / 2), 0))]) []
  (pyRange (-2 * ROOT_CHORD_LENGTH) (2 * ROOT_CHORD_LENGTH) distance).foldl
    (fun grid (x : ℤ) =>
      grid ++ [(((x : ℝ), -((SPAN : ℝ) / 2), 0),
        ((x : ℝ) + ((SPAN : ℝ) / 2) * Real.tan angle, 0, 0))]) grid1

/-- A Python number passed as the `distance` argument: an int or a float. -/
inductive PyNum where
  | int : ℤ → PyNum
  | float : ℚ → PyNum
deriving DecidableEq

/-- A Python exception raised by `range` on a bad step argument. -/
inductive PyErr where
  | typeError : PyErr
  | valueError : PyErr
deriving DecidableEq

/-- The dynamic checking Python's `range` performs on its step argument:
a float step raises `TypeError`, a zero step raises `ValueError`. -/
def range_step_check : PyNum → Except PyErr ℤ
  | .float _ => .error .typeError
  | .int z => if z = 0 then .error .valueError else .ok z

/-- `create_spars` together with the dynamic checks its first `range` call
performs on `distance` before any line is drawn. -/
noncomputable def create_spars_checked (angle : ℝ) (distance : PyNum) :
    Except PyErr (List ((ℝ × ℝ × ℝ) × (ℝ × ℝ × ℝ))) :=
  match range_step_check distance with
  | .error e => .error e
  | .ok z => .ok (create_spars angle z)

/-- The five aileron corner points of `run` (source lines 448-452). -/
noncomputable def ail_point_lead1 : ℝ × ℝ × ℝ :=
  ((TIP_CHORD_LENGTH : ℝ) + ((SPAN : ℝ) / 2) * Real.tan SWEEP - (AIL_LENGTH : ℝ),
    -((SPAN : ℝ) / 2), 0)

/-- Aileron point `lead2` (source line 449). -/
noncomputable def ail_point_lead2 : ℝ × ℝ × ℝ :=
  (((ROOT_CHORD_LENGTH : ℝ) - (AIL_LENGTH : ℝ)) +
      (((SPAN : ℝ) / 2) - (AIL_WIDTH : ℝ)) * Real.tan TRAIL_SWEEP,
    -(((SPAN : ℝ) / 2) - (AIL_WIDTH : ℝ)), 0)

/-- Aileron point `slit1` (source line 450). -/
noncomputable def ail_point_slit1 : ℝ × ℝ × ℝ :=
  (((ROOT_CHORD_LENGTH : ℝ) - (AIL_LENGTH : ℝ)) +
      (((SPAN : ℝ) / 2) - (AIL_WIDTH : ℝ)) * Real.tan TRAIL_SWEEP +
      (AIL_LENGTH : ℝ) * 2,
    -(((SPAN : ℝ) / 2) - (AIL_WIDTH : ℝ)), 0)

/-- Aileron point `slit2` (source line 451). -/
noncomputable def ail_point_slit2 : ℝ × ℝ × ℝ :=
  (((ROOT_CHORD_LENGTH : ℝ) - (AIL_LENGTH : ℝ)) +
      (((SPAN : ℝ) / 2) - (AIL_WIDTH : ℝ) - (AIL_SPACE : ℝ)) * Real.tan TRAIL_SWEEP,
    -(((SPAN : ℝ) / 2) - (AIL_WIDTH : ℝ) - (AIL_SPACE : ℝ)), 0)

/-- Aileron point `slit3` (source line 452). -/
noncomputable def ail_point_slit3 : ℝ × ℝ × ℝ :=
  (((ROOT_CHORD_LENGTH : ℝ) - (AIL_LENGTH : ℝ)) +
      (((SPAN : ℝ) / 2) - (AIL_WIDTH : ℝ) - (AIL_SPACE : ℝ)) * Real.tan TRAIL_SWEEP +
      (AIL_LENGTH : ℝ) * 2,
    -(((SPAN : ℝ) / 2) - (AIL_WIDTH : ℝ) - (AIL_SPACE : ℝ)), 0)

/-! Helper lemmas. -/

/-- A `foldl` that appends one image per element builds `acc ++ map f l`. -/
theorem foldl_push_eq_map {α β : Type} (f : α → β) (l : List α) :
    ∀ acc : List β, l.foldl (fun g a => g ++ [f a]) acc = acc ++ l.map f := by
  induction l with
  | nil => intro acc; simp
  | cons a t ih => intro acc; simp [List.foldl_cons, ih]

/-- The accumulating loop of `read_profile` is sequential parsing of all
lines, appended to the accumulators. -/
theorem read_profile_loop_eq (ls : List String) :
    ∀ xs ys : List PyFloatVal,
      read_profile_loop ls xs ys =
        (parse_all ls).map (fun ps => (xs ++ ps.map Prod.fst, ys ++ ps.map Prod.snd)) := by
  induction ls with
  | nil => intro xs ys; simp [read_profile_loop, parse_all]
  | cons l t ih =>
    intro xs ys
    cases hp : parse_cols l with
    | none => simp [read_profile_loop, parse_all, hp]
    | some p =>
      obtain ⟨x, y⟩ := p
      cases ht : parse_all t with
      | none => simp [read_profile_loop, parse_all, hp, ht, ih]
      | some ps => simp [read_profile_loop, parse_all, hp, ht, ih]

/-- `read_profile` is sequential parsing of the lines after the header. -/
theorem read_profile_eq_parse_all (lines : List String) :
    read_profile lines = parse_all (lines.drop 1) := by
  unfold read_profile
  rw [read_profile_loop_eq]
  cases h : parse_all (lines.drop 1) with
  | none => simp
  | some ps => simp [List.zip_map']

/-- If every line parses, `parse_all` returns every parsed pair in order. -/
theorem parse_all_eq_some_of_forall {ls : List String}
    (h : ∀ l ∈ ls, (parse_cols l).isSome = true) :
    parse_all ls = some (ls.map (fun l => (parse_cols l).getD default)) := by
  induction ls with
  | nil => simp [parse_all]
  | cons a t ih =>
    have ha := h a (List.mem_cons_self a t)
    obtain ⟨p, hp⟩ := Option.isSome_iff_exists.mp ha
    have ht := ih (fun l hl => h l (List.mem_cons_of_mem a hl))
    simp [parse_all, hp, ht]

/-- One unparsable line makes the whole sequential parse fail. -/
theorem parse_all_eq_none_of_mem {ls : List String} {l : String}
    (hmem : l ∈ ls) (hl : parse_cols l = none) : parse_all ls = none := by
  induction ls with
  | nil => cases hmem
  | cons a t ih =>
    rcases List.mem_cons.mp hmem with h | h
    · subst h; simp [parse_all, hl]
    · cases hp : parse_cols a <;> simp [parse_all, hp, ih h]

/-- The loop never visits more lines than there are. -/
theorem read_profile_visits_loop_le (ls : List String) :
    read_profile_visits_loop ls ≤ ls.length := by
  induction ls with
  | nil => simp [read_profile_visits_loop]
  | cons a t ih =>
    cases hp : parse_cols a with
    | none => simp [read_profile_visits_loop, hp]
    | some p =>
      simp only [read_profile_visits_loop, hp, List.length_cons]
      omega

/-- On a successful run the loop visits every line exactly once. -/
theorem read_profile_visits_loop_eq_of_some {ls : List String}
    {ps : List (PyFloatVal × PyFloatVal)} (h : parse_all ls = some ps) :
    read_profile_visits_loop ls = ls.length := by
  induction ls generalizing ps with
  | nil => simp [read_profile_visits_loop]
  | cons a t ih =>
    cases hp : parse_cols a with
    | none => simp [parse_all, hp] at h
    | some p =>
      cases ht : parse_all t with
      | none => simp [parse_all, hp, ht] at h
      | some qs =>
        simp only [read_profile_visits_loop, hp, List.length_cons]
        rw [ih ht]
        omega

/-- For a positive step, the range length is the ceiling of
`(stop - start) / step`. -/
theorem pyRangeLen_eq_ceil (start stop step : ℤ) (h : 0 < step) (hss : start ≤ stop) :
    (pyRangeLen start stop step : ℤ) = ⌈((stop - start : ℤ) : ℚ) / ((step : ℤ) : ℚ)⌉ := by
  have hstep0 : (0 : ℚ) < ((step : ℤ) : ℚ) := by exact_mod_cast h
  have hlen : pyRangeLen start stop step =
      (stop - start + step - 1).toNat / step.toNat := by
    simp [pyRangeLen, h]
  obtain ⟨N, hN⟩ : ∃ N : ℕ, (N : ℤ) = stop - start + step - 1 :=
    ⟨(stop - start + step - 1).toNat, Int.toNat_of_nonneg (by omega)⟩
  obtain ⟨D, hD⟩ : ∃ D : ℕ, (D : ℤ) = step :=
    ⟨step.toNat, Int.toNat_of_nonneg (by omega)⟩
  have hN' : (stop - start + step - 1).toNat = N := by omega
  have hD' : step.toNat = D := by omega
  rw [hlen, hN', hD', eq_comm, Int.ceil_eq_iff]
  have hDpos : 0 < D := by omega
  have hdm : D * (N / D) + N % D = N := Nat.div_add_mod N D
  have hr1 : N % D + 1 ≤ D := Nat.mod_lt _ hDpos
  have hdmQ : (D : ℚ) * ((N / D : ℕ) : ℚ) + ((N % D : ℕ) : ℚ) = (N : ℚ) := by
    exact_mod_cast hdm
  have hr1Q : ((N % D : ℕ) : ℚ) + 1 ≤ (D : ℚ) := by exact_mod_cast hr1
  have hr0Q : (0 : ℚ) ≤ ((N % D : ℕ) : ℚ) := by positivity
  have hNQ : (N : ℚ) = (stop : ℚ) - (start : ℚ) + (step : ℚ) - 1 := by
    exact_mod_cast hN
  have hDQ : (D : ℚ) = ((step : ℤ) : ℚ) := by exact_mod_cast hD
  have hsubQ : (((stop - start : ℤ)) : ℚ) = (stop : ℚ) - (start : ℚ) := by push_cast; ring
  constructor
  · rw [lt_div_iff₀ hstep0, Int.cast_natCast]
    nlinarith [hdmQ, hr1Q, hr0Q, hNQ, hDQ, hsubQ]
  · rw [div_le_iff₀ hstep0, Int.cast_natCast]
    nlinarith [hdmQ, hr1Q, hr0Q, hNQ, hDQ, hsubQ]

/-- Elements of a positive-step range: bounded below by the start, strictly
below the stop, and on the arithmetic grid. -/
theorem pyRange_mem (start stop step : ℤ) (h : 0 < step) :
    ∀ x ∈ pyRange start stop step,
      start ≤ x ∧ x < stop ∧ ∃ k : ℕ, x = start + (k : ℤ) * step := by
  intro x hx
  rw [pyRange] at hx
  obtain ⟨k, hk, rfl⟩ := List.mem_map.mp hx
  rw [List.mem_range] at hk
  have hk0 : (0 : ℤ) ≤ (k : ℤ) * step :=
    mul_nonneg (Int.natCast_nonneg k) (le_of_lt h)
  refine ⟨by linarith, ?_, k, rfl⟩
  have hlen : pyRangeLen start stop step =
      (stop - start + step - 1).toNat / step.toNat := by
    simp [pyRangeLen, h]
  rw [hlen] at hk
  have hDpos : 0 < step.toNat := by omega
  have hk1 : k + 1 ≤ (stop - start + step - 1).toNat / step.toNat := hk
  have hmul : (k + 1) * step.toNat ≤ (stop - start + step - 1).toNat :=
    (Nat.le_div_iff_mul_le hDpos).mp hk1
  have hmulZ : ((k : ℤ) + 1) * step ≤ ((stop - start + step - 1).toNat : ℤ) := by
    calc ((k : ℤ) + 1) * step = (((k + 1) * step.toNat : ℕ) : ℤ) := by
          push_cast [Int.toNat_of_nonneg (le_of_lt h)]
          ring
    _ ≤ ((stop - start + step - 1).toNat : ℤ) := Int.ofNat_le.mpr hmul
  have hstep1 : step ≤ ((k : ℤ) + 1) * step := by nlinarith [Int.natCast_nonneg k]
  have hmax : ((stop - start + step - 1).toNat : ℤ) = max (stop - start + step - 1) 0 :=
    Int.toNat_eq_max _
  have hfin : ((k : ℤ) + 1) * step ≤ stop - start + step - 1 := by
    rcases le_or_lt 0 (stop - start + step - 1) with hc | hc
    · rw [hmax, max_eq_left hc] at hmulZ
      exact hmulZ
    · exfalso
      rw [hmax, max_eq_right (by omega)] at hmulZ
      linarith
  nlinarith [hfin]

/-- `create_spars` is the front-to-back lines followed by the back-to-front
lines, one per range element, in range order. -/
theorem create_spars_eq_append (angle : ℝ) (distance : ℤ) :
    create_spars angle distance =
      (pyRange (-2 * ROOT_CHORD_LENGTH) (2 * ROOT_CHORD_LENGTH) distance).map
        (fun (x : ℤ) => (((x : ℝ), 0, 0),
          ((x : ℝ) + ((SPAN : ℝ) / 2) * Real.tan angle, -((SPAN : ℝ) / 2), 0))) ++
      (pyRange (-2 * ROOT_CHORD_LENGTH) (2 * ROOT_CHORD_LENGTH) distance).map
        (fun (x : ℤ) => (((x : ℝ), -((SPAN : ℝ) / 2), 0),
          ((x : ℝ) + ((SPAN : ℝ) / 2) * Real.tan angle, 0, 0))) := by
  unfold create_spars
  rw [foldl_push_eq_map, foldl_push_eq_map]
  simp

/-! Claim theorems. -/

/-- C2: `sketch_chord` maps each profile point `(p_x, p_y)`, in order, to
the 3-D point `(p_x*length + x, p_y*length + y, 0)`; the root chord is
drawn with length `ROOT_CHORD_LENGTH` at position `(0, 0)` and the tip
chord with length `TIP_CHORD_LENGTH` at position
`((SPAN/2)*tan(SWEEP), 0)`. -/
theorem sketch_chord_points_correct (length x y : ℝ) (profile : List (ℝ × ℝ)) :
    sketch_chord_points length profile x y =
      profile.map (fun p => (p.1 * length + x, p.2 * length + y, 0)) ∧
    root_chord_points profile =
      profile.map (fun p =>
        (p.1 * (ROOT_CHORD_LENGTH : ℝ) + 0, p.2 * (ROOT_CHORD_LENGTH : ℝ) + 0, 0)) ∧
    tip_chord_points profile =
      profile.map (fun p =>
        (p.1 * (TIP_CHORD_LENGTH : ℝ) + ((SPAN : ℝ) / 2) * Real.tan SWEEP,
          p.2 * (TIP_CHORD_LENGTH : ℝ) + 0, 0)) := by
  refine ⟨?_, ?_, ?_⟩ <;>
    simp [sketch_chord_points, root_chord_points, tip_chord_points,
      foldl_push_eq_map]

/-- C3: `TRAIL_SWEEP` is the arcsine of
`(TIP_CHORD_LENGTH + (SPAN/2)*tan(SWEEP) - ROOT_CHORD_LENGTH) / (SPAN/2)`,
and for the design constants that argument lies in `[-1, 1]`, so the
computation raises no domain error. -/
theorem trail_sweep_well_defined :
    TRAIL_SWEEP =
      Real.arcsin (((TIP_CHORD_LENGTH : ℝ) + ((SPAN : ℝ) / 2) * Real.tan SWEEP -
        (ROOT_CHORD_LENGTH : ℝ)) / ((SPAN : ℝ) / 2)) ∧
    -1 ≤ ((TIP_CHORD_LENGTH : ℝ) + ((SPAN : ℝ) / 2) * Real.tan SWEEP -
        (ROOT_CHORD_LENGTH : ℝ)) / ((SPAN : ℝ) / 2) ∧
    ((TIP_CHORD_LENGTH : ℝ) + ((SPAN : ℝ) / 2) * Real.tan SWEEP -
        (ROOT_CHORD_LENGTH : ℝ)) / ((SPAN : ℝ) / 2) ≤ 1 := by
  have hsweep : SWEEP = Real.pi / 6 := by unfold SWEEP; ring
  have htan : Real.tan SWEEP = 1 / Real.sqrt 3 := by
    rw [hsweep, Real.tan_pi_div_six]
  have hs3 : Real.sqrt 3 ^ 2 = 3 := Real.sq_sqrt (by norm_num)
  have hs_pos : 0 < Real.sqrt 3 := Real.sqrt_pos.mpr (by norm_num)
  have h17 : (1.7 : ℝ) < Real.sqrt 3 := by
    nlinarith [hs3, hs_pos, sq_nonneg (Real.sqrt 3 - 1.7)]
  have h18 : Real.sqrt 3 < 1.8 := by
    nlinarith [hs3, hs_pos, sq_nonneg (Real.sqrt 3 - 1.8)]
  have hinv_lo : (0.55 : ℝ) < 1 / Real.sqrt 3 := by
    rw [lt_div_iff₀ hs_pos]; nlinarith
  have hinv_hi : 1 / Real.sqrt 3 < (0.59 : ℝ) := by
    rw [div_lt_iff₀ hs_pos]; nlinarith
  refine ⟨rfl, ?_, ?_⟩
  · rw [htan]
    simp only [TIP_CHORD_LENGTH, SPAN, ROOT_CHORD_LENGTH]
    push_cast
    rw [le_div_iff₀ (by norm_num : (0 : ℝ) < 55 / 2)]
    nlinarith
  · rw [htan]
    simp only [TIP_CHORD_LENGTH, SPAN, ROOT_CHORD_LENGTH]
    push_cast
    rw [div_le_one (by norm_num : (0 : ℝ) < 55 / 2)]
    nlinarith

/-- C5: the five aileron corner points are computed by the stated formulas
(`slit1` is `lead2` shifted by `2*AIL_LENGTH` in x, `slit3` is `slit2`
shifted likewise), and the span coordinate of every point lies between
`-(SPAN/2)` and `-(SPAN/2 - AIL_WIDTH - AIL_SPACE)`. -/
theorem ail_points_correct :
    ail_point_lead1 =
      ((TIP_CHORD_LENGTH : ℝ) + ((SPAN : ℝ) / 2) * Real.tan SWEEP - (AIL_LENGTH : ℝ),
        -((SPAN : ℝ) / 2), 0) ∧
    ail_point_lead2 =
      (((ROOT_CHORD_LENGTH : ℝ) - (AIL_LENGTH : ℝ)) +
          (((SPAN : ℝ) / 2) - (AIL_WIDTH : ℝ)) * Real.tan TRAIL_SWEEP,
        -(((SPAN : ℝ) / 2) - (AIL_WIDTH : ℝ)), 0) ∧
    ail_point_slit1 =
      (ail_point_lead2.1 + 2 * (AIL_LENGTH : ℝ), ail_point_lead2.2.1,
        ail_point_lead2.2.2) ∧
    ail_point_slit2 =
      (((ROOT_CHORD_LENGTH : ℝ) - (AIL_LENGTH : ℝ)) +
          (((SPAN : ℝ) / 2) - (AIL_WIDTH : ℝ) - (AIL_SPACE : ℝ)) * Real.tan TRAIL_SWEEP,
        -(((SPAN : ℝ) / 2) - (AIL_WIDTH : ℝ) - (AIL_SPACE : ℝ)), 0) ∧
    ail_point_slit3 =
      (ail_point_slit2.1 + 2 * (AIL_LENGTH : ℝ), ail_point_slit2.2.1,
        ail_point_slit2.2.2) ∧
    (-((SPAN : ℝ) / 2) ≤ ail_point_lead1.2.1 ∧
      ail_point_lead1.2.1 ≤ -(((SPAN : ℝ) / 2) - (AIL_WIDTH : ℝ) - (AIL_SPACE : ℝ))) ∧
    (-((SPAN : ℝ) / 2) ≤ ail_point_lead2.2.1 ∧
      ail_point_lead2.2.1 ≤ -(((SPAN : ℝ) / 2) - (AIL_WIDTH : ℝ) - (AIL_SPACE : ℝ))) ∧
    (-((SPAN : ℝ) / 2) ≤ ail_point_slit1.2.1 ∧
      ail_point_slit1.2.1 ≤ -(((SPAN : ℝ) / 2) - (AIL_WIDTH : ℝ) - (AIL_SPACE : ℝ))) ∧
    (-((SPAN : ℝ) / 2) ≤ ail_point_slit2.2.1 ∧
      ail_point_slit2.2.1 ≤ -(((SPAN : ℝ) / 2) - (AIL_WIDTH : ℝ) - (AIL_SPACE : ℝ))) ∧
    (-((SPAN : ℝ) / 2) ≤ ail_point_slit3.2.1 ∧
      ail_point_slit3.2.1 ≤ -(((SPAN : ℝ) / 2) - (AIL_WIDTH : ℝ) - (AIL_SPACE : ℝ))) := by
  refine ⟨rfl, rfl, ?_, rfl, ?_, ?_, ?_, ?_, ?_, ?_⟩
  · simp only [ail_point_slit1, ail_point_lead2, Prod.mk.injEq]
    exact ⟨by ring, trivial⟩
  · simp only [ail_point_slit3, ail_point_slit2, Prod.mk.injEq]
    exact ⟨by ring, trivial⟩
  all_goals
    simp only [ail_point_lead1, ail_point_lead2, ail_point_slit1, ail_point_slit2,
      ail_point_slit3, SPAN, AIL_WIDTH, AIL_SPACE]
  all_goals push_cast
  all_goals norm_num

/-- C6: the geometry parameter computations are pure and deterministic:
equal arguments give equal chord points and equal spar grids. -/
theorem geometry_deterministic (l₁ l₂ x₁ x₂ y₁ y₂ a₁ a₂ : ℝ)
    (p₁ p₂ : List (ℝ × ℝ)) (d₁ d₂ : ℤ)
    (hl : l₁ = l₂) (hp : p₁ = p₂) (hx : x₁ = x₂) (hy : y₁ = y₂)
    (ha : a₁ = a₂) (hd : d₁ = d₂) :
    sketch_chord_points l₁ p₁ x₁ y₁ = sketch_chord_points l₂ p₂ x₂ y₂ ∧
    create_spars a₁ d₁ = create_spars a₂ d₂ := by
  subst hl hp hx hy ha hd
  exact ⟨rfl, rfl⟩

/-- Witness for C6 at concrete arguments. -/
theorem geometry_deterministic_witness :
    sketch_chord_points 1 [] 0 0 = sketch_chord_points 1 [] 0 0 ∧
    create_spars 0 4 = create_spars 0 4 :=
  geometry_deterministic 1 1 0 0 0 0 0 0 [] [] 4 4 rfl rfl rfl rfl rfl rfl

/-- C8: `read_profile` ignores its `path` parameter: it always reads the
file at `PROFILE_PATH`, so the result is the same for any two path
arguments and depends only on the contents stored at `PROFILE_PATH`. -/
theorem read_profile_ignores_path (this_dir p₁ p₂ : String)
    (fs fs' : String → List String)
    (hsame : fs (PROFILE_PATH this_dir) = fs' (PROFILE_PATH this_dir)) :
    read_profile_open this_dir fs p₁ = read_profile_open this_dir fs p₂ ∧
    read_profile_open this_dir fs p₁ = read_profile_open this_dir fs' p₂ := by
  refine ⟨rfl, ?_⟩
  unfold read_profile_open
  rw [hsame]

/-- Witness for C8 at concrete arguments. -/
theorem read_profile_ignores_path_witness :
    read_profile_open "d" (fun _ => ["h", "1.0 2.0"]) "a" =
      read_profile_open "d" (fun _ => ["h", "1.0 2.0"]) "b" ∧
    read_profile_open "d" (fun _ => ["h", "1.0 2.0"]) "a" =
      read_profile_open "d" (fun _ => ["h", "1.0 2.0"]) "b" :=
  read_profile_ignores_path "d" "a" "b" _ _ rfl

/-- A line that splits on a single space into two float-parsable tokens is
parsed into the pair of their values. -/
theorem parse_cols_eq_of_wf {l : String}
    (h2 : (pySplit l).length = 2)
    (hx : (pyFloat ((pySplit l).getD 0 "")).isSome = true)
    (hy : (pyFloat ((pySplit l).getD 1 "")).isSome = true) :
    parse_cols l = some
      ((pyFloat ((pySplit l).getD 0 "")).getD default,
       (pyFloat ((pySplit l).getD 1 "")).getD default) := by
  obtain ⟨a, b, hab⟩ := List.length_eq_two.mp h2
  have ha : (pySplit l).getD 0 "" = a := by rw [hab]; rfl
  have hb : (pySplit l).getD 1 "" = b := by rw [hab]; rfl
  rw [ha] at hx ⊢
  rw [hb] at hy ⊢
  obtain ⟨va, hva⟩ := Option.isSome_iff_exists.mp hx
  obtain ⟨vb, hvb⟩ := Option.isSome_iff_exists.mp hy
  simp [parse_cols, hab, hva, hvb]

/-- C1 (amended): for every profile file whose lines after the first each
consist of exactly two float-parsable tokens separated by a single space
character, `read_profile` returns the ordered list of (x, y) pairs, one per
data line, in file order, with the header line skipped. -/
theorem read_profile_space_delimited (lines : List String)
    (h : ∀ l ∈ lines.drop 1, (pySplit l).length = 2 ∧
      (pyFloat ((pySplit l).getD 0 "")).isSome = true ∧
      (pyFloat ((pySplit l).getD 1 "")).isSome = true) :
    read_profile lines =
      some ((lines.drop 1).map (fun l =>
        ((pyFloat ((pySplit l).getD 0 "")).getD default,
         (pyFloat ((pySplit l).getD 1 "")).getD default))) := by
  rw [read_profile_eq_parse_all]
  have hall : ∀ l ∈ lines.drop 1, (parse_cols l).isSome = true := by
    intro l hl
    rw [parse_cols_eq_of_wf (h l hl).1 (h l hl).2.1 (h l hl).2.2]
    rfl
  rw [parse_all_eq_some_of_forall hall]
  congr 1
  refine List.map_congr_left ?_
  intro l hl
  rw [parse_cols_eq_of_wf (h l hl).1 (h l hl).2.1 (h l hl).2.2]
  rfl

/-- C1 counterexample: a data file whose single data line holds two
float columns separated by a tab (whitespace, but not the single space
character the code splits on) makes `read_profile` raise, while the same
columns separated by one space parse fine. -/
theorem read_profile_tab_counterexample :
    read_profile ["MH45", "0.0\t0.0"] = none ∧
    read_profile ["MH45", "0.0 0.0"] =
      some [(PyFloatVal.finite 0, PyFloatVal.finite 0)] := by
  constructor
  · rfl
  · decide

/-- Witness for C1 on a three-line well-formed file. -/
theorem read_profile_space_delimited_witness :
    (∀ l ∈ (["MH45", "1.0 0.0", "0.5 0.043"] : List String).drop 1,
      (pySplit l).length = 2 ∧
      (pyFloat ((pySplit l).getD 0 "")).isSome = true ∧
      (pyFloat ((pySplit l).getD 1 "")).isSome = true) ∧
    read_profile ["MH45", "1.0 0.0", "0.5 0.043"] =
      some (((["MH45", "1.0 0.0", "0.5 0.043"] : List String).drop 1).map (fun l =>
        ((pyFloat ((pySplit l).getD 0 "")).getD default,
         (pyFloat ((pySplit l).getD 1 "")).getD default))) :=
  ⟨by decide, read_profile_space_delimited _ (by decide)⟩

/-- C9: any data line that does not split on a single space into exactly
two float-parsable tokens (tab-delimited lines, runs of spaces, blank
lines, wrong column counts, unparsable columns) makes `read_profile`
raise `ValueError`; no malformed line is skipped or repaired. -/
theorem read_profile_malformed_line (lines : List String) (l : String)
    (hmem : l ∈ lines.drop 1)
    (hbad : (pySplit l).length ≠ 2 ∨
      (pyFloat ((pySplit l).getD 0 "")).isSome = false ∨
      (pyFloat ((pySplit l).getD 1 "")).isSome = false) :
    read_profile lines = none := by
  rw [read_profile_eq_parse_all]
  refine parse_all_eq_none_of_mem hmem ?_
  rcases hsp : pySplit l with _ | ⟨a, rest⟩
  · simp [parse_cols, hsp]
  · rcases rest with _ | ⟨b, rest2⟩
    · simp [parse_cols, hsp]
    · rcases rest2 with _ | ⟨c, rest3⟩
      · have ha : (pySplit l).getD 0 "" = a := by rw [hsp]; rfl
        have hb : (pySplit l).getD 1 "" = b := by rw [hsp]; rfl
        rcases hbad with h2 | hx | hy
        · exact absurd (by rw [hsp]; rfl) h2
        · rw [ha] at hx
          have hxn : pyFloat a = none := by
            cases hpa : pyFloat a
            · rfl
            · rw [hpa] at hx; cases hx
          cases hpb : pyFloat b <;> simp [parse_cols, hsp, hxn, hpb]
        · rw [hb] at hy
          have hyn : pyFloat b = none := by
            cases hpb : pyFloat b
            · rfl
            · rw [hpb] at hy; cases hy
          cases hpa : pyFloat a <;> simp [parse_cols, hsp, hyn, hpa]
      · simp [parse_cols, hsp]

/-- Witness for C9 on a line with two consecutive spaces. -/
theorem read_profile_malformed_line_witness :
    read_profile ["MH45", "1.0  2.0"] = none :=
  read_profile_malformed_line ["MH45", "1.0  2.0"] "1.0  2.0" (by decide) (by decide)

/-- C4: for a positive `distance`, `create_spars` draws one front-to-back
line and one back-to-front line per range element, front-to-back lines
first, with the stated endpoints, and the grid holds exactly
`2 * ceil(4*ROOT_CHORD_LENGTH / distance)` lines; every range element `x`
runs from `-2*ROOT_CHORD_LENGTH` up to but excluding `2*ROOT_CHORD_LENGTH`
in steps of `distance`. -/
theorem create_spars_correct (angle : ℝ) (distance : ℤ) (hd : 0 < distance) :
    create_spars angle distance =
      (pyRange (-2 * ROOT_CHORD_LENGTH) (2 * ROOT_CHORD_LENGTH) distance).map
        (fun (x : ℤ) => (((x : ℝ), 0, 0),
          ((x : ℝ) + ((SPAN : ℝ) / 2) * Real.tan angle, -((SPAN : ℝ) / 2), 0))) ++
      (pyRange (-2 * ROOT_CHORD_LENGTH) (2 * ROOT_CHORD_LENGTH) distance).map
        (fun (x : ℤ) => (((x : ℝ), -((SPAN : ℝ) / 2), 0),
          ((x : ℝ) + ((SPAN : ℝ) / 2) * Real.tan angle, 0, 0))) ∧
    (create_spars angle distance).length =
      2 * (⌈(4 * (ROOT_CHORD_LENGTH : ℚ)) / ((distance : ℤ) : ℚ)⌉).toNat ∧
    ∀ x ∈ pyRange (-2 * ROOT_CHORD_LENGTH) (2 * ROOT_CHORD_LENGTH) distance,
      -2 * ROOT_CHORD_LENGTH ≤ x ∧ x < 2 * ROOT_CHORD_LENGTH ∧
        ∃ k : ℕ, x = -2 * ROOT_CHORD_LENGTH + (k : ℤ) * distance := by
  refine ⟨create_spars_eq_append angle distance, ?_, pyRange_mem _ _ _ hd⟩
  rw [create_spars_eq_append]
  simp only [List.length_append, List.length_map, pyRange, List.length_range]
  have hceil := pyRangeLen_eq_ceil (-2 * ROOT_CHORD_LENGTH) (2 * ROOT_CHORD_LENGTH)
    distance hd (by norm_num [ROOT_CHORD_LENGTH])
  have harg : ((2 * ROOT_CHORD_LENGTH - -2 * ROOT_CHORD_LENGTH : ℤ) : ℚ) =
      4 * (ROOT_CHORD_LENGTH : ℚ) := by norm_num [ROOT_CHORD_LENGTH]
  rw [harg] at hceil
  omega

/-- Witness for C4 at `distance = 4`. -/
theorem create_spars_correct_witness :
    (0 : ℤ) < 4 ∧
    (create_spars 0 4 =
      (pyRange (-2 * ROOT_CHORD_LENGTH) (2 * ROOT_CHORD_LENGTH) 4).map
        (fun (x : ℤ) => (((x : ℝ), 0, 0),
          ((x : ℝ) + ((SPAN : ℝ) / 2) * Real.tan 0, -((SPAN : ℝ) / 2), 0))) ++
      (pyRange (-2 * ROOT_CHORD_LENGTH) (2 * ROOT_CHORD_LENGTH) 4).map
        (fun (x : ℤ) => (((x : ℝ), -((SPAN : ℝ) / 2), 0),
          ((x : ℝ) + ((SPAN : ℝ) / 2) * Real.tan 0, 0, 0))) ∧
    (create_spars 0 4).length =
      2 * (⌈(4 * (ROOT_CHORD_LENGTH : ℚ)) / (((4 : ℤ) : ℤ) : ℚ)⌉).toNat ∧
    ∀ x ∈ pyRange (-2 * ROOT_CHORD_LENGTH) (2 * ROOT_CHORD_LENGTH) 4,
      -2 * ROOT_CHORD_LENGTH ≤ x ∧ x < 2 * ROOT_CHORD_LENGTH ∧
        ∃ k : ℕ, x = -2 * ROOT_CHORD_LENGTH + (k : ℤ) * 4) :=
  ⟨by norm_num, create_spars_correct 0 4 (by norm_num)⟩

/-- C7: `read_profile` makes one bounded single pass over the data lines
(visiting each exactly once when it succeeds), and for every positive
integer `distance` the two loops of `create_spars` run over the bounded
range, `pyRangeLen` iterations each, at most `4*ROOT_CHORD_LENGTH` per
loop. -/
theorem single_pass_termination :
    (∀ lines : List String,
      read_profile_visits lines ≤ (lines.drop 1).length ∧
      ((read_profile lines).isSome = true →
        read_profile_visits lines = (lines.drop 1).length)) ∧
    (∀ (angle : ℝ) (distance : ℤ), 0 < distance →
      (create_spars angle distance).length =
        2 * pyRangeLen (-2 * ROOT_CHORD_LENGTH) (2 * ROOT_CHORD_LENGTH) distance ∧
      pyRangeLen (-2 * ROOT_CHORD_LENGTH) (2 * ROOT_CHORD_LENGTH) distance ≤
        (4 * ROOT_CHORD_LENGTH).toNat) := by
  constructor
  · intro lines
    refine ⟨read_profile_visits_loop_le _, ?_⟩
    intro hs
    rw [read_profile_eq_parse_all] at hs
    obtain ⟨ps, hps⟩ := Option.isSome_iff_exists.mp hs
    exact read_profile_visits_loop_eq_of_some hps
  · intro angle distance hd
    constructor
    · rw [create_spars_eq_append]
      simp only [List.length_append, List.length_map, pyRange, List.length_range]
      ring
    · have h1 : pyRangeLen (-2 * ROOT_CHORD_LENGTH) (2 * ROOT_CHORD_LENGTH) distance =
          (79 + distance).toNat / distance.toNat := by
        simp only [pyRangeLen, if_pos hd]
        congr 1
        norm_num [ROOT_CHORD_LENGTH]
        omega
      have htn : (79 + distance).toNat = 79 + distance.toNat := by omega
      have hD : 0 < distance.toNat := by omega
      have hdiv : (79 + distance.toNat) / distance.toNat =
          79 / distance.toNat + 1 := Nat.add_div_right 79 hD
      have h79 : 79 / distance.toNat ≤ 79 := Nat.div_le_self _ _
      have hgoal : (4 * ROOT_CHORD_LENGTH).toNat = 80 := by
        decide
      rw [h1, htn, hdiv, hgoal]
      omega

/-- Witness for C7 on a two-line file and `distance = 4`. -/
theorem single_pass_termination_witness :
    (read_profile_visits ["MH45", "0.0 0.0"] ≤
        ((["MH45", "0.0 0.0"] : List String).drop 1).length ∧
      read_profile_visits ["MH45", "0.0 0.0"] =
        ((["MH45", "0.0 0.0"] : List String).drop 1).length) ∧
    ((create_spars 0 4).length =
        2 * pyRangeLen (-2 * ROOT_CHORD_LENGTH) (2 * ROOT_CHORD_LENGTH) 4 ∧
      pyRangeLen (-2 * ROOT_CHORD_LENGTH) (2 * ROOT_CHORD_LENGTH) 4 ≤
        (4 * ROOT_CHORD_LENGTH).toNat) :=
  ⟨⟨(single_pass_termination.1 ["MH45", "0.0 0.0"]).1,
    (single_pass_termination.1 ["MH45", "0.0 0.0"]).2 (by decide)⟩,
    single_pass_termination.2 0 4 (by norm_num)⟩

/-- C10: `create_spars` has an integrality precondition on `distance`:
`range` rejects a float step with `TypeError` and a zero step with
`ValueError`; any nonzero integer step draws the grid. -/
theorem create_spars_distance_check :
    (∀ (angle : ℝ) (q : ℚ),
      create_spars_checked angle (PyNum.float q) = Except.error PyErr.typeError) ∧
    (∀ angle : ℝ,
      create_spars_checked angle (PyNum.int 0) = Except.error PyErr.valueError) ∧
    (∀ (angle : ℝ) (z : ℤ), z ≠ 0 →
      create_spars_checked angle (PyNum.int z) = Except.ok (create_spars angle z)) := by
  refine ⟨fun angle q => rfl, fun angle => rfl, fun angle z hz => ?_⟩
  simp [create_spars_checked, range_step_check, hz]

/-- Witness for C10 at concrete step arguments. -/
theorem create_spars_distance_check_witness :
    create_spars_checked 0 (PyNum.float (1 / 2)) = Except.error PyErr.typeError ∧
    create_spars_checked 0 (PyNum.int 0) = Except.error PyErr.valueError ∧
    create_spars_checked 0 (PyNum.int 4) = Except.ok (create_spars 0 4) :=
  ⟨create_spars_distance_check.1 0 (1 / 2), create_spars_distance_check.2.1 0,
    create_spars_distance_check.2.2 0 4 (by norm_num)⟩

end Skywalker
